import Mathlib

/-!
Shallow embedding of the coding-agent repository's retry/publish/notify core.

The Python sources embedded here are:
* `src/handler.py` — the build pipeline: `generate_code_with_gemini`,
  `create_or_update_repo`, `enable_github_pages`, `notify_evaluation_url`,
  and the round-2 context-fetch prefix of `handle_build_request`;
* `src/app.py` — the `api_endpoint` POST validation path;
* `src/coding_agent.py` and `src/core/github_client.py` — the two variants of
  `get_latest_ai_review_verdict`;
* the AttemptLoop orchestrator, which is described by the specification but is
  not among the source files, is modelled from the spec (see `AttemptLoopModel`).

External effects (HTTP responses, the LLM reply, the base64 decoder, the GitHub
API) are passed in as explicit inputs; machine state that Python mutates (the
caller's `files` dict, the set of committed files in a repository) is threaded
explicitly.
-/

/-- Substring test: `containsSub s sub = true` iff `sub` occurs contiguously in
`s`. This embeds Python's `sub in s` operator, used by the sources for MIME
sniffing and verdict-marker detection. -/
def containsSub (s sub : String) : Bool :=
  (List.range (s.data.length + 1)).any
    (fun i => decide ((s.data.drop i).take sub.data.length = sub.data))

/-- A string shaped like a complete standalone HTML document: it literally
starts with the doctype declaration and ends with the closing html tag. -/
def isStandaloneHtmlish (s : String) : Prop :=
  (∃ t, "<!doctype html>" ++ t = s) ∧ (∃ t, t ++ "</html>\n" = s)

namespace Handler

/-- One attachment record of the inbound task (`handler.py`). `name` and `url`
are the dict entries (absent key ⇒ `none`); `b64decoded` abstracts the outcome
of `base64.b64decode(encoded)` followed by utf-8/latin-1 text decoding: `none`
when `b64decode` raises, otherwise the decoded text (the latin-1 fallback makes
the charset step total, so a successful `b64decode` always yields a string). -/
structure Attachment where
  name : Option String
  url : Option String
  b64decoded : Option String

/-- Python's `url.split(",", 1)` followed by 2-tuple unpacking: `none` when the
url has no comma (the `ValueError` branch), otherwise the part before the first
comma and everything after it. -/
def splitDataUrl (url : String) : Option (String × String) :=
  match url.splitOn "," with
  | [] => none
  | [_] => none
  | h :: rest => some (h, String.intercalate "," rest)

/-- The per-attachment block appended to `content_parts` in
`generate_code_with_gemini` (`handler.py` lines 118-156). -/
def processAttachment (att : Attachment) : String :=
  let name := att.name.getD "unnamed"
  let url := att.url.getD ""
  match splitDataUrl url with
  | none =>
    "File name: " ++ name ++ "\nFile content:\n[Attachment present but could not be parsed (" ++ name ++ ").]"
  | some (header, _encoded) =>
    let headerLower := header.toLower
    let isTextLike :=
      containsSub headerLower "text" || containsSub headerLower "json" ||
      containsSub headerLower "csv" || containsSub headerLower "xml" ||
      containsSub headerLower "javascript" || containsSub headerLower "html"
    let isBase64 := containsSub headerLower "base64"
    if isTextLike && isBase64 then
      match att.b64decoded with
      | some decoded =>
        "File name: " ++ name ++ "\nFile content:\n```\n" ++ decoded ++ "\n```"
      | none =>
        "File name: " ++ name ++ "\nFile content:\n[Attachment could not be decoded as text (" ++ name ++ ").]"
    else
      "File name: " ++ name ++ "\nFile content:\n[Content of binary or non-text file (" ++ name ++ ") is attached but not displayed here.]"

/-- The `attachment_content` string: the default text when `attachments` is
empty/None, else the processed parts joined by blank lines. -/
def attachmentContent (atts : List Attachment) : String :=
  if atts.isEmpty then "No attachments provided."
  else String.intercalate "\n\n" (atts.map processAttachment)

/-- The update-mode prompt template of `generate_code_with_gemini` (used when
`existing_code` is truthy). -/
def updatePrompt (existing_code brief attachment_content : String) : String :=
  "\nYou are an expert web developer who modifies and improves single-file web apps.\nA user provided ORIGINAL CODE for `index.html` and a NEW BRIEF. Modify the ORIGINAL CODE\nto implement the NEW BRIEF while preserving ALL existing functionality unless the brief\nexplicitly says to remove or replace it. Fix bugs, improve accessibility, and make the\nfile production-ready (HTML/CSS/JS in one file). Keep the structure and comments where possible.\n\n--- ORIGINAL CODE (index.html) START ---\n"
  ++ existing_code ++
  "\n--- ORIGINAL CODE (index.html) END ---\n\nBRIEF:\n"
  ++ brief ++
  "\n\nATTACHMENTS:\n"
  ++ attachment_content ++
  "\n\nINSTRUCTIONS:\n- Return ONLY the raw contents of the updated `index.html` file. Do NOT include any surrounding\n  explanation, Markdown, or code fences.\n- The returned HTML must be a valid, standalone single-file web page (contains <!doctype html> etc.).\n- If you add or change functionality, keep backward compatibility and do not remove previously working features.\n- If an attachment contains text, consider its content and incorporate it when appropriate.\n"

/-- The create-mode prompt template of `generate_code_with_gemini` (used when
`existing_code` is None or empty). -/
def createPrompt (brief attachment_content : String) : String :=
  "\nYou are an expert web developer creating single-file applications.\nBased on the brief and attachments, create a complete `index.html` file.\nThe code must be production-ready and contain all HTML, CSS, and JavaScript.\n\nBRIEF:\n"
  ++ brief ++
  "\n\nATTACHMENTS:\n"
  ++ attachment_content ++
  "\n\nINSTRUCTIONS:\n- Return ONLY the raw contents of the `index.html` file. Do NOT include explanations, notes, or Markdown formatting.\n- The HTML must be a valid, standalone file (include <!doctype html>, charset meta, responsive viewport, and any inline CSS/JS required).\n"

/-- Accidental-fence stripping applied to the model's reply (`handler.py`
lines 212-220): if the stripped reply starts with a fence and the first line
mentions html, drop the first line and a trailing fence line. Python's
`splitlines`/`"\n".join` round-trip is embedded as `splitOn "\n"` /
`intercalate "\n"`. -/
def stripFences (code : String) : String :=
  if code.trim.startsWith "```" && containsSub (((code.splitOn "\n").headD "").toLower) "html" then
    let lines := (code.splitOn "\n").drop 1
    let lines :=
      if (match lines.getLast? with
          | some l => l.trim.startsWith "```"
          | none => false) then lines.dropLast else lines
    String.intercalate "\n" lines
  else code

/-- The fixed part of `safe_error_html` before the interpolated error text. -/
def safeErrorHtmlPre : String :=
  "<!doctype html>\n<html lang=\"en\">\n<head>\n  <meta charset=\"utf-8\">\n  <meta name=\"viewport\" content=\"width=device-width,initial-scale=1\">\n  <title>Generated Project (Error)</title>\n</head>\n<body>\n  <!-- Gemini generation failed; falling back to minimal placeholder page. -->\n  <!-- Error: "

/-- The fixed part of `safe_error_html` after the interpolated error text. -/
def safeErrorHtmlPost : String :=
  " -->\n  <main>\n    <h1>Auto-generation failed</h1>\n    <p>The automated generation service returned an error. Please try again.</p>\n  </main>\n</body>\n</html>\n"

/-- The fallback page built in the `except` branch of the Gemini call: the
error text is truncated to 300 characters (`str(e)[:300]`) and spliced into a
fixed minimal HTML document. -/
def safe_error_html (e : String) : String :=
  safeErrorHtmlPre ++ e.take 300 ++ safeErrorHtmlPost

/-- The README contents built by `generate_code_with_gemini`. -/
def readmeContent (brief : String) : String :=
  "# Project: " ++ brief.take 50 ++ "...\n## Summary\nThis project was automatically generated to solve the task: \"" ++ brief ++ "\".\nIt was created/updated by an automated assistant (Gemini).\n## How to use\nOpen `index.html` in a browser to view the single-file application.\n## License\nThis project is licensed under the MIT License. See the LICENSE file for details.\n"

/-- The fixed LICENSE contents built by `generate_code_with_gemini`. -/
def licenseContent : String :=
  "MIT License\n\nCopyright (c) 2025 Aditya Kumar\n\nPermission is hereby granted, free of charge, to any person obtaining a copy of this software and associated documentation files (the \"Software\"), to deal in the Software without restriction, including without limitation the rights to use, copy, modify, merge, publish, distribute, sublicense, and/or sell copies of the Software, and to permit persons to whom the Software is furnished to do so, subject to the following conditions:\n\nThe above copyright notice and this permission notice shall be included in all copies or substantial portions of the Software.\n\nTHE SOFTWARE IS PROVIDED \"AS IS\", WITHOUT WARRANTY OF ANY KIND, EXPRESS OR IMPLIED, INCLUDING BUT NOT LIMITED TO THE WARRANTIES OF MERCHANTABILITY, FITNESS FOR A PARTICULAR PURPOSE AND NONINFRINGEMENT. IN NO EVENT SHALL THE AUTHORS OR COPYRIGHT HOLDERS BE LIABLE FOR ANY CLAIM, DAMAGES OR OTHER LIABILITY, WHETHER IN AN ACTION OF CONTRACT, TORT OR OTHERWISE, ARISING FROM, OUT OF OR IN CONNECTION WITH THE SOFTWARE OR THE USE OR OTHER DEALINGS IN THE SOFTWARE."

/-- Embedding of `generate_code_with_gemini` (`handler.py` lines 100-279).
`llm` is the external Gemini call as a function of the prompt: `.ok text` is a
reply (the source's `getattr` chain guarantees a string), `.error e` is a
raised exception with message `e`. Every other failure point in the source is
wrapped in its own try/except, so for record-shaped attachments the function
is total and the only case split is on the LLM outcome. -/
def generate_code_with_gemini (brief : String) (attachments : List Attachment)
    (existing_code : Option String) (llm : String → Except String String) :
    List (String × String) :=
  let attachment_content := attachmentContent attachments
  let prompt :=
    match existing_code with
    | some ec => if ec.isEmpty then createPrompt brief attachment_content
                 else updatePrompt ec brief attachment_content
    | none => createPrompt brief attachment_content
  let code :=
    match llm prompt with
    | Except.ok text => stripFences text
    | Except.error e => safe_error_html e
  [("index.html", code), ("README.md", readmeContent brief), ("LICENSE", licenseContent)]

/-- Mutating GitHub calls issued by `create_or_update_repo`, annotated with the
number of files committed in the repository at the moment the call is made. -/
inductive RepoOp where
  | createRepo : RepoOp
  | createFile (path : String) (nfiles : Nat) : RepoOp
  | updateFile (path : String) (nfiles : Nat) : RepoOp
deriving DecidableEq

/-- The per-file loop of `create_or_update_repo` (`handler.py` lines 306-313):
for each remaining file, `get_contents` decides between `update_file` (file
already committed) and `create_file` (404). Returns the emitted operations and
the final set of committed paths. -/
def updateLoop (repoFiles : List String) :
    List (String × String) → List RepoOp × List String
  | [] => ([], repoFiles)
  | (p, _c) :: rest =>
    if p ∈ repoFiles then
      let t := updateLoop repoFiles rest
      (RepoOp.updateFile p repoFiles.length :: t.1, t.2)
    else
      let t := updateLoop (repoFiles ++ [p]) rest
      (RepoOp.createFile p repoFiles.length :: t.1, t.2)

/-- Embedding of `create_or_update_repo` (`handler.py` lines 281-324).
`existingRepo` is the `get_repo` outcome: `none` models the
`UnknownObjectException` branch (repository absent), `some paths` an existing
repository with the given committed files. `files` is the caller's ordered
artifact mapping. Returns the operation trace, the final committed paths, and
the caller's mapping after the call (the source mutates it via `files.pop` in
the new-repo branch). `.error ()` is the `IndexError` raised by
`list(files.keys())[0]` on an empty mapping. -/
def create_or_update_repo (existingRepo : Option (List String))
    (files : List (String × String)) :
    Except Unit (List RepoOp × List String × List (String × String)) :=
  match existingRepo with
  | some repoFiles =>
    let t := updateLoop repoFiles files
    Except.ok (t.1, t.2, files)
  | none =>
    match files with
    | [] => Except.error ()
    | (p0, _c0) :: rest =>
      let t := updateLoop [p0] rest
      Except.ok (RepoOp.createRepo :: RepoOp.createFile p0 0 :: t.1, t.2, rest)

/-- Python `requests.Response.raise_for_status`: raises `HTTPError` exactly for
4xx and 5xx status codes and is a no-op otherwise. -/
def raise_for_status (status : Nat) : Except Nat Unit :=
  if 400 ≤ status ∧ status < 600 then Except.error status else Except.ok ()

/-- Embedding of `enable_github_pages` (`handler.py` lines 326-347) as a
function of the POST response status: 2xx and 409 return normally, anything
else falls through to `raise_for_status`. -/
def enable_github_pages (status : Nat) : Except Nat Unit :=
  if 200 ≤ status ∧ status < 300 then Except.ok ()
  else if status = 409 then Except.ok ()
  else raise_for_status status

/-- Outcome of `notify_evaluation_url`: `ok` when it returns, `raised` when it
raises after exhausting its attempts. -/
inductive NotifyOutcome where
  | ok : NotifyOutcome
  | raised : NotifyOutcome
deriving DecidableEq

/-- The retry loop of `notify_evaluation_url` from loop index `i` with `fuel`
iterations left. `resp i` is the outcome of the i-th POST: `some s` a response
with status `s`, `none` a `RequestException`. Each iteration sleeps `2^i`
seconds before POSTing; the slept delays are returned alongside the outcome. -/
def notifyFrom (resp : Nat → Option Nat) (i : Nat) : Nat → NotifyOutcome × List Nat
  | 0 => (NotifyOutcome.raised, [])
  | fuel + 1 =>
    if resp i = some 200 then (NotifyOutcome.ok, [2 ^ i])
    else
      let t := notifyFrom resp (i + 1) fuel
      (t.1, 2 ^ i :: t.2)

/-- Embedding of `notify_evaluation_url` (`handler.py` lines 349-363):
`for i in range(5)` with sleep `2^i` before each POST, returning at the first
status-200 response and raising after the loop otherwise. -/
def notify_evaluation_url (resp : Nat → Option Nat) : NotifyOutcome × List Nat :=
  notifyFrom resp 0 5

/-- Observable steps of the front of `handle_build_request`. -/
inductive PipeEvent where
  | fetchPrior (repoName : String) (path : String) (ok : Bool) : PipeEvent
  | generate (existing : Option String) : PipeEvent
deriving DecidableEq

/-- Embedding of the round-2 context-fetch prefix of `handle_build_request`
(`handler.py` lines 30-49): for `round > 1` the pipeline first tries to read
`index.html` from the repository named after the task; `fetch` is the outcome
of that `get_repo`/`get_contents`/decode block (`.error` models any raised
exception, which the source catches). Returns the event trace up to the
generate call together with the `existing_code` value handed to the
generator. -/
def handle_build_request_context (task : String) (round : Nat)
    (fetch : Except String String) : List PipeEvent × Option String :=
  if round > 1 then
    match fetch with
    | Except.ok code =>
      ([PipeEvent.fetchPrior task "index.html" true, PipeEvent.generate (some code)], some code)
    | Except.error _ =>
      ([PipeEvent.fetchPrior task "index.html" false, PipeEvent.generate none], none)
  else ([PipeEvent.generate none], none)

end Handler

namespace AppEndpoint

/-- The required payload fields checked by `api_endpoint` (`app.py`). -/
def REQUIRED_FIELDS : List String :=
  ["email", "secret", "task", "round", "nonce", "brief", "evaluation_url"]

/-- Embedding of the POST branch of `api_endpoint` (`app.py` lines 29-62).
`envSecret` is `os.getenv('MY_SECRET')` (`none` = unset); an empty string is
falsy in Python and also hits the misconfiguration branch. `isJson` is
`request.is_json`, `data` the parsed JSON object as a key/value list,
`spawnOk` whether `threading.Thread(...).start()` succeeds. Returns the HTTP
status of the response and whether background processing of the task was
dispatched. -/
def api_endpoint_post (envSecret : Option String) (isJson : Bool)
    (data : List (String × String)) (spawnOk : Bool) : Nat × Bool :=
  if isJson = false then (400, false)
  else if (REQUIRED_FIELDS.filter (fun f => (data.lookup f).isNone)) ≠ [] then (400, false)
  else
    match envSecret with
    | none => (500, false)
    | some expected =>
      if expected = "" then (500, false)
      else if data.lookup "secret" ≠ some expected then (403, false)
      else if spawnOk then (200, true) else (500, false)

end AppEndpoint

/-- The AI-reviewer report header both verdict scanners look for. -/
def botHeader : String := "🤖 AI Reviewer Agent Report"

namespace CodingAgent

/-- The comment classification step of `get_latest_ai_review_verdict` in
`src/coding_agent.py` (lines 314-328): a comment yields a verdict only if it
carries the report header and one of the three marker strings; a header
comment with no marker yields nothing and the scan continues. -/
def verdictOfComment (body : String) : Option String :=
  if containsSub body botHeader then
    if containsSub body "Вердикт: APPROVE" then some "APPROVE"
    else if containsSub body "Вердикт: REQUEST_CHANGES" then some "REQUEST_CHANGES"
    else if containsSub body "Вердикт: COMMENT" then some "COMMENT"
    else none
  else none

/-- The comment for-loop: first classified comment wins. -/
def scanComments : List String → Option String
  | [] => none
  | c :: rest =>
    match verdictOfComment c with
    | some v => some v
    | none => scanComments rest

/-- The reviews fallback loop (`src/coding_agent.py` lines 331-341): the first
review whose state is APPROVED or CHANGES_REQUESTED wins. -/
def scanReviews : List String → Option String
  | [] => none
  | st :: rest =>
    if st = "APPROVED" then some "APPROVE"
    else if st = "CHANGES_REQUESTED" then some "REQUEST_CHANGES"
    else scanReviews rest

/-- Embedding of `get_latest_ai_review_verdict` (`src/coding_agent.py` lines
303-348): scan the issue comments newest-first for a marker verdict, fall back
to the structural reviews, and answer PENDING when neither yields anything.
`comments` is in API order (oldest first; the source reverses it), `reviews`
is the list of review states. -/
def get_latest_ai_review_verdict (comments reviews : List String) : String :=
  match scanComments comments.reverse with
  | some v => v
  | none =>
    match scanReviews reviews with
    | some v => v
    | none => "PENDING"

end CodingAgent

namespace CoreGithubClient

/-- The comment classification step of `get_latest_ai_review_verdict` in
`src/core/github_client.py` (lines 233-247): this variant also accepts the
plain "AI Reviewer" header and the latin "VERDICT:" marker spellings. -/
def verdictOfComment (body : String) : Option String :=
  if containsSub body botHeader || containsSub body "AI Reviewer" then
    if containsSub body "Вердикт: APPROVE" || containsSub body "VERDICT: APPROVE" then
      some "APPROVE"
    else if containsSub body "Вердикт: REQUEST_CHANGES" || containsSub body "VERDICT: REQUEST_CHANGES" then
      some "REQUEST_CHANGES"
    else if containsSub body "Вердикт: COMMENT" || containsSub body "VERDICT: COMMENT" then
      some "COMMENT"
    else none
  else none

/-- The comment for-loop of the core variant: first classified comment wins. -/
def scanComments : List String → Option String
  | [] => none
  | c :: rest =>
    match verdictOfComment c with
    | some v => some v
    | none => scanComments rest

/-- The reviews fallback loop of the core variant (`src/core/github_client.py`
lines 250-260). -/
def scanReviews : List String → Option String
  | [] => none
  | st :: rest =>
    if st = "APPROVED" then some "APPROVE"
    else if st = "CHANGES_REQUESTED" then some "REQUEST_CHANGES"
    else scanReviews rest

/-- Embedding of `get_latest_ai_review_verdict` (`src/core/github_client.py`
lines 222-267). -/
def get_latest_ai_review_verdict (comments reviews : List String) : String :=
  match scanComments comments.reverse with
  | some v => v
  | none =>
    match scanReviews reviews with
    | some v => v
    | none => "PENDING"

end CoreGithubClient

namespace AttemptLoopModel

/-- Verdicts observed by the attempt loop (spec §3). -/
inductive Verdict where
  | APPROVED : Verdict
  | CHANGES_REQUESTED : Verdict
  | PENDING : Verdict
  | ERROR : Verdict
deriving DecidableEq

/-- Policy default retry budget (spec §4.1 step 2). -/
def MAX_ATTEMPTS : Nat := 3

/-- Modelled from the spec: the AttemptLoop orchestrator of §4.1 is described
by the specification but is not among the repository's source files under
`src/` (only its collaborators are). Per the spec, the attempt counter starts
at 1 and the loop body — one generate/publish cycle followed by the bounded
verdict poll — runs while `counter ≤ MAX_ATTEMPTS`; APPROVED returns Success,
every other terminal poll outcome advances the counter. `verdictOf c` is the
terminal outcome of attempt `c`'s poll sub-loop. The result pairs the success
flag with the number of generate/publish cycles executed. `fuel` is an upper
bound on remaining iterations; `MAX_ATTEMPTS + 1` iterations always suffice,
so the fuel never runs out and the function equals the spec's while loop. -/
def runFrom (verdictOf : Nat → Verdict) (counter : Nat) : Nat → Bool × Nat
  | 0 => (false, 0)
  | fuel + 1 =>
    if counter ≤ MAX_ATTEMPTS then
      match verdictOf counter with
      | Verdict.APPROVED => (true, 1)
      | _ =>
        let t := runFrom verdictOf (counter + 1) fuel
        (t.1, t.2 + 1)
    else (false, 0)

/-- Modelled from the spec: one AttemptLoop run, counter initialized to 1. -/
def run (verdictOf : Nat → Verdict) : Bool × Nat :=
  runFrom verdictOf 1 (MAX_ATTEMPTS + 1)

end AttemptLoopModel

/-- Concrete notifier behaviour for Scenario D: non-200 on the first four
attempts, 200 on the fifth. -/
def respScenarioD : Nat → Option Nat :=
  fun i => if i < 4 then some 500 else some 200

/-- Concrete notifier behaviour succeeding on the third attempt, used as a
witness input. -/
def respThirdOk : Nat → Option Nat :=
  fun i => if i = 2 then some 200 else some 500

/-- Concrete review comments for the verdict counterexample: a reviewer report
whose verdict text is malformed (contains none of the defined markers). -/
def cexComments : List String :=
  ["🤖 AI Reviewer Agent Report\nstatus: looks good to me"]

/-- Concrete review states for the verdict counterexample: one structural
APPROVED review. -/
def cexReviews : List String := ["APPROVED"]

/-- A complete well-formed request body with a wrong secret, used as a witness
input for the endpoint gate. -/
def witnessData : List (String × String) :=
  [("email", "e@x"), ("secret", "wrong"), ("task", "t1"), ("round", "1"),
   ("nonce", "n"), ("brief", "b"), ("evaluation_url", "u")]

namespace Handler

/-- The part of `safeErrorHtmlPre` after the leading doctype declaration. -/
def safeErrorHtmlPreTail : String :=
  "\n<html lang=\"en\">\n<head>\n  <meta charset=\"utf-8\">\n  <meta name=\"viewport\" content=\"width=device-width,initial-scale=1\">\n  <title>Generated Project (Error)</title>\n</head>\n<body>\n  <!-- Gemini generation failed; falling back to minimal placeholder page. -->\n  <!-- Error: "

/-- The part of `safeErrorHtmlPost` before the trailing closing html tag. -/
def safeErrorHtmlPostInit : String :=
  " -->\n  <main>\n    <h1>Auto-generation failed</h1>\n    <p>The automated generation service returned an error. Please try again.</p>\n  </main>\n</body>\n"

end Handler

/-! ## Helper lemmas -/

/-- Cycle-count bound for the attempt loop tail starting at a given counter. -/
theorem runFrom_cycles_le (v : Nat → AttemptLoopModel.Verdict) :
    ∀ (f c : Nat), (AttemptLoopModel.runFrom v c f).2 ≤ AttemptLoopModel.MAX_ATTEMPTS + 1 - c := by
  intro f
  induction f with
  | zero => intro c; simp [AttemptLoopModel.runFrom]
  | succ f ih =>
    intro c
    by_cases hc : c ≤ AttemptLoopModel.MAX_ATTEMPTS
    · cases hv : v c with
      | APPROVED =>
        simp only [AttemptLoopModel.runFrom, if_pos hc, hv]
        omega
      | CHANGES_REQUESTED =>
        simp only [AttemptLoopModel.runFrom, if_pos hc, hv]
        have := ih (c + 1)
        omega
      | PENDING =>
        simp only [AttemptLoopModel.runFrom, if_pos hc, hv]
        have := ih (c + 1)
        omega
      | ERROR =>
        simp only [AttemptLoopModel.runFrom, if_pos hc, hv]
        have := ih (c + 1)
        omega
    · simp [AttemptLoopModel.runFrom, hc]

/-! ## C1 -/

/-- C1: for every single task, the attempt loop executes at most
MAX_ATTEMPTS (= 3) generate/publish cycles. The counter starts at 1 (see
`AttemptLoopModel.run`) and the loop body runs only while
`counter ≤ MAX_ATTEMPTS`, so no run performs a fourth generate or publish
call. -/
theorem attempt_loop_bounded_retry (verdictOf : Nat → AttemptLoopModel.Verdict) :
    (AttemptLoopModel.run verdictOf).2 ≤ AttemptLoopModel.MAX_ATTEMPTS ∧
    AttemptLoopModel.MAX_ATTEMPTS = 3 := by
  refine ⟨?_, rfl⟩
  have h := runFrom_cycles_le verdictOf (AttemptLoopModel.MAX_ATTEMPTS + 1) 1
  simpa using h

/-! ## C8 -/

/-- C8 counterexample: status 304 is neither 2xx nor 409, yet
`enable_github_pages` returns normally instead of raising, because
`raise_for_status` only raises for 4xx/5xx; this refutes "any other non-2xx
status causes it to raise". -/
theorem enable_pages_304_counterexample :
    Handler.enable_github_pages 304 = Except.ok () ∧
    ¬(200 ≤ (304 : Nat) ∧ (304 : Nat) < 300) ∧ (304 : Nat) ≠ 409 := by
  refine ⟨rfl, by omega, by omega⟩

/-- C8 amended: `enable_github_pages` treats 409 as success exactly like a 2xx
response, and it raises exactly for the statuses `raise_for_status` raises on,
i.e. 4xx/5xx other than 409; non-2xx statuses outside 400..599 (such as 304)
also return normally. -/
theorem enable_pages_success_iff (status : Nat) :
    Handler.enable_github_pages status = Except.ok () ↔
      (status < 400 ∨ 600 ≤ status ∨ status = 409) := by
  unfold Handler.enable_github_pages Handler.raise_for_status
  by_cases h1 : 200 ≤ status ∧ status < 300
  · rw [if_pos h1]
    simp
    omega
  · rw [if_neg h1]
    by_cases h2 : status = 409
    · rw [if_pos h2]
      simp
      omega
    · rw [if_neg h2]
      by_cases h3 : 400 ≤ status ∧ status < 600
      · rw [if_pos h3]
        simp
        omega
      · rw [if_neg h3]
        simp
        omega

/-! ## C9 -/

/-- C9 counterexample: a JSON POST whose secret differs from the server-held
secret but which is missing other required fields is answered with 400, not
403 (the field check fires before the secret check); no processing starts. -/
theorem api_wrong_secret_counterexample :
    AppEndpoint.api_endpoint_post (some "topsecret") true [("secret", "wrong")] true = (400, false) ∧
    ([("secret", "wrong")] : List (String × String)).lookup "secret" ≠ some "topsecret" ∧
    (400 : Nat) ≠ 403 := by
  refine ⟨by decide, by decide, by decide⟩

/-- C9 amended: whenever the supplied secret differs from the configured one,
no background processing is dispatched, whatever the response status; and a
JSON request carrying every required field, against a configured non-empty
server secret, is answered with exactly 403 and no processing. Requests
failing earlier validation are rejected with 400/500, also without
processing. -/
theorem api_secret_gate (envSecret : Option String) (isJson : Bool)
    (data : List (String × String)) (spawnOk : Bool)
    (hmismatch : ∀ expected, envSecret = some expected → data.lookup "secret" ≠ some expected) :
    (AppEndpoint.api_endpoint_post envSecret isJson data spawnOk).2 = false ∧
    (∀ expected, envSecret = some expected → expected ≠ "" → isJson = true →
      AppEndpoint.REQUIRED_FIELDS.filter (fun f => (data.lookup f).isNone) = [] →
      AppEndpoint.api_endpoint_post envSecret isJson data spawnOk = (403, false)) := by
  constructor
  · unfold AppEndpoint.api_endpoint_post
    by_cases hj : isJson = false
    · rw [if_pos hj]
    · rw [if_neg hj]
      by_cases hm : AppEndpoint.REQUIRED_FIELDS.filter (fun f => (data.lookup f).isNone) ≠ []
      · rw [if_pos hm]
      · rw [if_neg hm]
        cases envSecret with
        | none => rfl
        | some expected =>
          dsimp only
          by_cases he : expected = ""
          · rw [if_pos he]
          · rw [if_neg he]
            rw [if_pos (hmismatch expected rfl)]
  · intro expected henv he hj hflt
    subst henv
    unfold AppEndpoint.api_endpoint_post
    rw [hj]
    rw [if_neg (by decide : ¬(true = false))]
    rw [if_neg (by simp [hflt])]
    dsimp only
    rw [if_neg he]
    rw [if_pos (hmismatch expected rfl)]

/-- Witness for C9's amended theorem at a concrete fully-formed request with a
wrong secret. -/
theorem api_secret_gate_witness :
    (AppEndpoint.api_endpoint_post (some "topsecret") true witnessData true).2 = false ∧
    AppEndpoint.api_endpoint_post (some "topsecret") true witnessData true = (403, false) := by
  have h := api_secret_gate (some "topsecret") true witnessData true
    (by intro expected hexp hlook
        injection hexp with hexp'
        subst hexp'
        revert hlook
        decide)
  exact ⟨h.1, h.2 "topsecret" rfl (by decide) rfl (by decide)⟩

/-! ## Notifier lemmas -/

/-- The notifier makes at most `fuel` attempts (one slept delay per POST). -/
theorem notifyFrom_length_le (resp : Nat → Option Nat) :
    ∀ (f i : Nat), (Handler.notifyFrom resp i f).2.length ≤ f := by
  intro f
  induction f with
  | zero => intro i; simp [Handler.notifyFrom]
  | succ f ih =>
    intro i
    by_cases h : resp i = some 200
    · simp [Handler.notifyFrom, h]
    · simp only [Handler.notifyFrom, if_neg h, List.length_cons]
      have := ih (i + 1)
      omega

/-- The slept delays from loop index `i` are exactly the consecutive powers of
two starting at `2^i`. -/
theorem notifyFrom_delays (resp : Nat → Option Nat) :
    ∀ (f i : Nat), (Handler.notifyFrom resp i f).2 =
      (List.range (Handler.notifyFrom resp i f).2.length).map (fun k => 2 ^ (i + k)) := by
  intro f
  induction f with
  | zero => intro i; simp [Handler.notifyFrom]
  | succ f ih =>
    intro i
    by_cases h : resp i = some 200
    · simp [Handler.notifyFrom, h, List.range_succ]
    · simp only [Handler.notifyFrom, if_neg h, List.length_cons]
      rw [List.range_succ_eq_map, List.map_cons, List.map_map]
      have hfun : ((fun k => 2 ^ (i + k)) ∘ Nat.succ) = fun k => 2 ^ (i + 1 + k) := by
        funext k
        have : i + Nat.succ k = i + 1 + k := by omega
        simp [Function.comp, this]
      rw [hfun]
      have := ih (i + 1)
      simp only [Nat.add_zero]
      exact congrArg (2 ^ i :: ·) this

/-- The notifier returns normally iff some attempt within the budget got a
200 response. -/
theorem notifyFrom_ok_iff (resp : Nat → Option Nat) :
    ∀ (f i : Nat), (Handler.notifyFrom resp i f).1 = Handler.NotifyOutcome.ok ↔
      ∃ k, k < f ∧ resp (i + k) = some 200 := by
  intro f
  induction f with
  | zero => intro i; simp [Handler.notifyFrom]
  | succ f ih =>
    intro i
    by_cases h : resp i = some 200
    · simp only [Handler.notifyFrom, if_pos h]
      constructor
      · intro _
        exact ⟨0, by omega, by simpa using h⟩
      · intro _
        trivial
    · simp only [Handler.notifyFrom, if_neg h]
      rw [ih (i + 1)]
      constructor
      · rintro ⟨k, hk, hr⟩
        refine ⟨k + 1, by omega, ?_⟩
        have hsh : i + 1 + k = i + (k + 1) := by omega
        rwa [hsh] at hr
      · rintro ⟨k, hk, hr⟩
        cases k with
        | zero => exact absurd (by simpa using hr) h
        | succ k' =>
          refine ⟨k', by omega, ?_⟩
          have : i + (k' + 1) = i + 1 + k' := by omega
          rwa [this] at hr

/-- When the first 200 arrives at attempt `k` within the budget, the notifier
stops there: exactly `k + 1` POSTs (and slept delays) happen. -/
theorem notifyFrom_stops_at_first (resp : Nat → Option Nat) :
    ∀ (f k i : Nat), k < f → resp (i + k) = some 200 →
      (∀ j, j < k → resp (i + j) ≠ some 200) →
      (Handler.notifyFrom resp i f).2.length = k + 1 := by
  intro f
  induction f with
  | zero => intro k i hk; omega
  | succ f ih =>
    intro k i hk h200 hfirst
    cases k with
    | zero =>
      have h : resp i = some 200 := by simpa using h200
      simp [Handler.notifyFrom, h]
    | succ k' =>
      have h0 : resp i ≠ some 200 := by
        have := hfirst 0 (by omega)
        simpa using this
      simp only [Handler.notifyFrom, if_neg h0, List.length_cons]
      have hrec : (Handler.notifyFrom resp (i + 1) f).2.length = k' + 1 := by
        refine ih k' (i + 1) (by omega) ?_ ?_
        · have : i + 1 + k' = i + (k' + 1) := by omega
          rwa [this]
        · intro j hj
          have : i + 1 + j = i + (j + 1) := by omega
          rw [this]
          exact hfirst (j + 1) (by omega)
      omega

/-! ## C3 -/

/-- C3: `notify_evaluation_url` makes at most 5 POST attempts; it sleeps
`2^i` seconds before attempt `i`, so the slept delays are the strictly
increasing sequence 1, 2, 4, 8, 16 truncated at the stopping attempt; it
returns normally iff one of the at-most-5 attempts gets status 200 (and it
raises otherwise); and it stops at the first attempt whose status is 200. -/
theorem notify_bounded_backoff (resp : Nat → Option Nat) :
    (Handler.notify_evaluation_url resp).2.length ≤ 5 ∧
    (Handler.notify_evaluation_url resp).2 =
      (List.range (Handler.notify_evaluation_url resp).2.length).map (fun i => 2 ^ i) ∧
    List.Chain' (· < ·) (Handler.notify_evaluation_url resp).2 ∧
    ((Handler.notify_evaluation_url resp).1 = Handler.NotifyOutcome.ok ↔
      ∃ i, i < 5 ∧ resp i = some 200) ∧
    (∀ k, k < 5 → resp k = some 200 → (∀ j, j < k → resp j ≠ some 200) →
      (Handler.notify_evaluation_url resp).2.length = k + 1) := by
  unfold Handler.notify_evaluation_url
  have hdelays := notifyFrom_delays resp 5 0
  simp only [Nat.zero_add] at hdelays
  refine ⟨notifyFrom_length_le resp 5 0, hdelays, ?_, ?_, ?_⟩
  · rw [hdelays]
    exact List.Pairwise.chain'
      ((List.pairwise_lt_range _).map _
        (fun a b hab => Nat.pow_lt_pow_right Nat.one_lt_two hab))
  · have h := notifyFrom_ok_iff resp 5 0
    simpa using h
  · intro k hk h200 hfirst
    exact notifyFrom_stops_at_first resp 5 k 0 hk (by simpa using h200)
      (fun j hj => by simpa using hfirst j hj)

/-- Witness for C3 at a notifier that answers 200 on the third attempt. -/
theorem notify_bounded_backoff_witness :
    (Handler.notify_evaluation_url respThirdOk).1 = Handler.NotifyOutcome.ok ∧
    (Handler.notify_evaluation_url respThirdOk).2 = [1, 2, 4] := by
  refine ⟨(notify_bounded_backoff respThirdOk).2.2.2.1.mpr ⟨2, by decide, by decide⟩, by decide⟩

/-! ## C4 -/

/-- C4 counterexample: with non-200 on the first four attempts and 200 on the
fifth, the run succeeds but the delays slept before the 5th POST are
1, 2, 4, 8 and 16 seconds — the code sleeps `2^i` before attempt `i`, so a
16-second sleep occurs immediately before the 5th call, refuting the claimed
sequence 1, 2, 4, 8. -/
theorem notify_scenarioD_counterexample :
    (Handler.notify_evaluation_url respScenarioD).1 = Handler.NotifyOutcome.ok ∧
    (Handler.notify_evaluation_url respScenarioD).2 = [1, 2, 4, 8, 16] ∧
    ([1, 2, 4, 8, 16] : List Nat) ≠ [1, 2, 4, 8] := by
  refine ⟨by decide, by decide, by decide⟩

/-- C4 amended: in Scenario D the pipeline reports success without raising,
and the backoff delays slept are 1s, 2s, 4s, 8s, 16s — `2^i` before attempt
`i` for i = 0..4, the 16s sleep falling immediately before the 5th call. -/
theorem notify_scenarioD_amended :
    (Handler.notify_evaluation_url respScenarioD).1 = Handler.NotifyOutcome.ok ∧
    (Handler.notify_evaluation_url respScenarioD).2 = [1, 2, 4, 8, 16] := by
  refine ⟨by decide, by decide⟩

/-! ## Publish lemmas -/

/-- Every update-style write emitted by the per-file loop happens against a
non-empty set of committed files, provided the loop starts non-empty (the
committed set only grows). -/
theorem updateLoop_update_pos :
    ∀ (rem : List (String × String)) (repoFiles : List String), repoFiles ≠ [] →
      ∀ p n, Handler.RepoOp.updateFile p n ∈ (Handler.updateLoop repoFiles rem).1 → 0 < n := by
  intro rem
  induction rem with
  | nil => intro repoFiles _ p n hmem; simp [Handler.updateLoop] at hmem
  | cons qc rest ih =>
    intro repoFiles hne p n hmem
    obtain ⟨q, c⟩ := qc
    by_cases hq : q ∈ repoFiles
    · simp only [Handler.updateLoop, if_pos hq, List.mem_cons] at hmem
      rcases hmem with heq | hmem
      · cases heq
        exact List.length_pos.mpr hne
      · exact ih repoFiles hne p n hmem
    · simp only [Handler.updateLoop, if_neg hq, List.mem_cons] at hmem
      rcases hmem with heq | hmem
      · exact absurd heq (by simp)
      · exact ih (repoFiles ++ [q]) (by simp) p n hmem

/-! ## C5 -/

/-- C5: publishing to a collection that does not yet exist first creates the
collection, then commits the artifact's first file as the initialization
step, and only afterwards runs the per-file loop over the remaining files;
every update-style write in the whole trace is issued while the repository
already has at least one committed file. -/
theorem publish_new_repo_initializes_before_update (p0 c0 : String)
    (rest : List (String × String)) :
    Handler.create_or_update_repo none ((p0, c0) :: rest) =
      Except.ok (Handler.RepoOp.createRepo :: Handler.RepoOp.createFile p0 0 ::
          (Handler.updateLoop [p0] rest).1,
        (Handler.updateLoop [p0] rest).2, rest) ∧
    (∀ p n, Handler.RepoOp.updateFile p n ∈
        Handler.RepoOp.createRepo :: Handler.RepoOp.createFile p0 0 ::
          (Handler.updateLoop [p0] rest).1 →
      0 < n) := by
  refine ⟨rfl, ?_⟩
  intro p n hmem
  simp only [List.mem_cons] at hmem
  rcases hmem with h | h | h
  · exact absurd h (by simp)
  · exact absurd h (by simp)
  · exact updateLoop_update_pos rest [p0] (by simp) p n h

/-- Witness for C5 at the concrete three-file artifact of the generator. -/
theorem publish_new_repo_initializes_before_update_witness :
    Handler.create_or_update_repo none
        [("index.html", "<p>hi</p>"), ("README.md", "r"), ("LICENSE", "l")] =
      Except.ok (Handler.RepoOp.createRepo :: Handler.RepoOp.createFile "index.html" 0 ::
          (Handler.updateLoop ["index.html"] [("README.md", "r"), ("LICENSE", "l")]).1,
        (Handler.updateLoop ["index.html"] [("README.md", "r"), ("LICENSE", "l")]).2,
        [("README.md", "r"), ("LICENSE", "l")]) :=
  (publish_new_repo_initializes_before_update "index.html" "<p>hi</p>"
    [("README.md", "r"), ("LICENSE", "l")]).1

/-! ## C10 helper -/

/-- A key absent from an association list's key column is not found by
`List.lookup`. -/
theorem lookup_eq_none_of_key_not_mem :
    ∀ (l : List (String × String)) (k : String), k ∉ l.map Prod.fst →
      l.lookup k = none := by
  intro l
  induction l with
  | nil => intro k _; rfl
  | cons ab t ih =>
    intro k hk
    obtain ⟨a, b⟩ := ab
    simp only [List.map_cons, List.mem_cons] at hk
    push_neg at hk
    have hne : (k == a) = false := beq_eq_false_iff_ne.mpr hk.1
    simp [List.lookup, hne, ih k hk.2]

/-! ## C10 -/

/-- C10: in the new-repo branch, `create_or_update_repo` pops the first entry
of the caller's artifact mapping: after the call the caller's mapping is
exactly the remaining entries (all other entries unchanged, in order) and no
longer contains the popped key. -/
theorem create_repo_pops_first_entry (p0 c0 : String) (rest : List (String × String))
    (hnodup : (((p0, c0) :: rest).map Prod.fst).Nodup) :
    ∃ tr fin, Handler.create_or_update_repo none ((p0, c0) :: rest) =
        Except.ok (tr, fin, rest) ∧
      rest.lookup p0 = none := by
  refine ⟨_, _, rfl, ?_⟩
  apply lookup_eq_none_of_key_not_mem
  simp only [List.map_cons, List.nodup_cons] at hnodup
  exact hnodup.1

/-- Witness for C10 at the generator's concrete three-file artifact. -/
theorem create_repo_pops_first_entry_witness :
    ∃ tr fin, Handler.create_or_update_repo none
        [("index.html", "a"), ("README.md", "b"), ("LICENSE", "c")] =
        Except.ok (tr, fin, [("README.md", "b"), ("LICENSE", "c")]) ∧
      ([("README.md", "b"), ("LICENSE", "c")] : List (String × String)).lookup "index.html" = none :=
  create_repo_pops_first_entry "index.html" "a" [("README.md", "b"), ("LICENSE", "c")]
    (by decide)

/-! ## Verdict-scanner lemmas -/

/-- A comment containing none of the `coding_agent.py` marker strings yields
no verdict, whether or not it carries the report header. -/
theorem CA_verdictOfComment_none (c : String)
    (h1 : containsSub c "Вердикт: APPROVE" = false)
    (h2 : containsSub c "Вердикт: REQUEST_CHANGES" = false)
    (h3 : containsSub c "Вердикт: COMMENT" = false) :
    CodingAgent.verdictOfComment c = none := by
  unfold CodingAgent.verdictOfComment
  rw [h1, h2, h3]
  by_cases hh : containsSub c botHeader
  · simp [hh]
  · simp [hh]

/-- A comment containing none of the `core/github_client.py` marker strings
yields no verdict in the core variant either. -/
theorem GH_verdictOfComment_none (c : String)
    (h1 : containsSub c "Вердикт: APPROVE" = false)
    (h2 : containsSub c "Вердикт: REQUEST_CHANGES" = false)
    (h3 : containsSub c "Вердикт: COMMENT" = false)
    (h4 : containsSub c "VERDICT: APPROVE" = false)
    (h5 : containsSub c "VERDICT: REQUEST_CHANGES" = false)
    (h6 : containsSub c "VERDICT: COMMENT" = false) :
    CoreGithubClient.verdictOfComment c = none := by
  unfold CoreGithubClient.verdictOfComment
  rw [h1, h2, h3, h4, h5, h6]
  by_cases hh : (containsSub c botHeader || containsSub c "AI Reviewer") = true
  · simp [hh]
  · simp [hh]

/-- The comment scan of the `coding_agent.py` variant finds nothing when no
comment classifies. -/
theorem CA_scanComments_none :
    ∀ (l : List String), (∀ c ∈ l, CodingAgent.verdictOfComment c = none) →
      CodingAgent.scanComments l = none := by
  intro l
  induction l with
  | nil => intro _; rfl
  | cons c rest ih =>
    intro h
    have hc := h c (by simp)
    simp only [CodingAgent.scanComments, hc]
    exact ih (fun x hx => h x (by simp [hx]))

/-- The comment scan of the core variant finds nothing when no comment
classifies. -/
theorem GH_scanComments_none :
    ∀ (l : List String), (∀ c ∈ l, CoreGithubClient.verdictOfComment c = none) →
      CoreGithubClient.scanComments l = none := by
  intro l
  induction l with
  | nil => intro _; rfl
  | cons c rest ih =>
    intro h
    have hc := h c (by simp)
    simp only [CoreGithubClient.scanComments, hc]
    exact ih (fun x hx => h x (by simp [hx]))

/-- The reviews fallback of the `coding_agent.py` variant finds nothing when
no review is APPROVED or CHANGES_REQUESTED. -/
theorem CA_scanReviews_none :
    ∀ (l : List String), (∀ r ∈ l, r ≠ "APPROVED" ∧ r ≠ "CHANGES_REQUESTED") →
      CodingAgent.scanReviews l = none := by
  intro l
  induction l with
  | nil => intro _; rfl
  | cons st rest ih =>
    intro h
    have hst := h st (by simp)
    simp only [CodingAgent.scanReviews, if_neg hst.1, if_neg hst.2]
    exact ih (fun x hx => h x (by simp [hx]))

/-- The reviews fallback of the core variant finds nothing when no review is
APPROVED or CHANGES_REQUESTED. -/
theorem GH_scanReviews_none :
    ∀ (l : List String), (∀ r ∈ l, r ≠ "APPROVED" ∧ r ≠ "CHANGES_REQUESTED") →
      CoreGithubClient.scanReviews l = none := by
  intro l
  induction l with
  | nil => intro _; rfl
  | cons st rest ih =>
    intro h
    have hst := h st (by simp)
    simp only [CoreGithubClient.scanReviews, if_neg hst.1, if_neg hst.2]
    exact ih (fun x hx => h x (by simp [hx]))

/-! ## C6 -/

/-- C6 counterexample: a polled review whose only reviewer comment carries the
report header but malformed verdict text (none of the six defined markers),
together with one structural APPROVED review, is classified APPROVE — not
PENDING — by both implementations: the comment scan falls through to
`pr.get_reviews()`. -/
theorem verdict_malformed_reviews_counterexample :
    (∀ c ∈ cexComments,
      containsSub c "Вердикт: APPROVE" = false ∧
      containsSub c "Вердикт: REQUEST_CHANGES" = false ∧
      containsSub c "Вердикт: COMMENT" = false ∧
      containsSub c "VERDICT: APPROVE" = false ∧
      containsSub c "VERDICT: REQUEST_CHANGES" = false ∧
      containsSub c "VERDICT: COMMENT" = false) ∧
    CodingAgent.get_latest_ai_review_verdict cexComments cexReviews = "APPROVE" ∧
    CoreGithubClient.get_latest_ai_review_verdict cexComments cexReviews = "APPROVE" ∧
    ("APPROVE" : String) ≠ "PENDING" := by
  refine ⟨by decide, by decide, by decide, by decide⟩

/-- C6 amended: when no discovered reviewer-comment text contains any of the
defined verdict markers AND no structural review carries state APPROVED or
CHANGES_REQUESTED, both implementations classify the poll as PENDING (so in
particular not APPROVE); malformed comment text alone can never produce
APPROVE, but a structural APPROVED review can. -/
theorem verdict_no_marker_no_review_pending (comments reviews : List String)
    (hc : ∀ c ∈ comments,
      containsSub c "Вердикт: APPROVE" = false ∧
      containsSub c "Вердикт: REQUEST_CHANGES" = false ∧
      containsSub c "Вердикт: COMMENT" = false ∧
      containsSub c "VERDICT: APPROVE" = false ∧
      containsSub c "VERDICT: REQUEST_CHANGES" = false ∧
      containsSub c "VERDICT: COMMENT" = false)
    (hr : ∀ r ∈ reviews, r ≠ "APPROVED" ∧ r ≠ "CHANGES_REQUESTED") :
    CodingAgent.get_latest_ai_review_verdict comments reviews = "PENDING" ∧
    CoreGithubClient.get_latest_ai_review_verdict comments reviews = "PENDING" := by
  have hcrev : ∀ c ∈ comments.reverse, c ∈ comments := by
    intro c hcm
    exact List.mem_reverse.mp hcm
  constructor
  · unfold CodingAgent.get_latest_ai_review_verdict
    rw [CA_scanComments_none comments.reverse (fun c hcm =>
      (fun h => CA_verdictOfComment_none c h.1 h.2.1 h.2.2.1) (hc c (hcrev c hcm)))]
    rw [CA_scanReviews_none reviews hr]
  · unfold CoreGithubClient.get_latest_ai_review_verdict
    rw [GH_scanComments_none comments.reverse (fun c hcm =>
      (fun h => GH_verdictOfComment_none c h.1 h.2.1 h.2.2.1 h.2.2.2.1 h.2.2.2.2.1 h.2.2.2.2.2)
        (hc c (hcrev c hcm)))]
    rw [GH_scanReviews_none reviews hr]

/-- Witness for C6's amended theorem at a marker-free comment and a review
state that is neither APPROVED nor CHANGES_REQUESTED. -/
theorem verdict_no_marker_no_review_pending_witness :
    CodingAgent.get_latest_ai_review_verdict ["hello"] ["COMMENTED"] = "PENDING" ∧
    CoreGithubClient.get_latest_ai_review_verdict ["hello"] ["COMMENTED"] = "PENDING" :=
  verdict_no_marker_no_review_pending ["hello"] ["COMMENTED"] (by decide) (by decide)

/-! ## Fallback-page shape lemmas -/

set_option maxRecDepth 4096 in
/-- The fixed template prefix decomposes as the doctype followed by the rest. -/
theorem safeErrorHtmlPre_decomp :
    Handler.safeErrorHtmlPre = "<!doctype html>" ++ Handler.safeErrorHtmlPreTail := by
  decide

set_option maxRecDepth 4096 in
/-- The fixed template suffix decomposes as a head part followed by the
closing html tag. -/
theorem safeErrorHtmlPost_decomp :
    Handler.safeErrorHtmlPost = Handler.safeErrorHtmlPostInit ++ "</html>\n" := by
  decide

/-- Looking up the key of the head entry of an association list yields the
head value. -/
theorem lookup_head_cons (k v : String) (t : List (String × String)) :
    ((k, v) :: t).lookup k = some v := by
  simp [List.lookup]

/-- Whatever the error message, the fallback page is a standalone document:
it starts with the doctype and ends with the closing html tag. -/
theorem safe_error_html_standalone (e : String) :
    isStandaloneHtmlish (Handler.safe_error_html e) := by
  constructor
  · refine ⟨Handler.safeErrorHtmlPreTail ++ e.take 300 ++ Handler.safeErrorHtmlPost, ?_⟩
    unfold Handler.safe_error_html
    rw [safeErrorHtmlPre_decomp]
    rw [String.append_assoc, String.append_assoc, String.append_assoc]
  · refine ⟨Handler.safeErrorHtmlPre ++ e.take 300 ++ Handler.safeErrorHtmlPostInit, ?_⟩
    unfold Handler.safe_error_html
    rw [safeErrorHtmlPost_decomp]
    rw [String.append_assoc, String.append_assoc]

/-! ## C2 -/

/-- C2: `generate_code_with_gemini` is total over its modelled inputs — every
raising operation inside it is wrapped in its own try/except — and always
returns a non-empty mapping containing the primary file `index.html`; when
the LLM call fails (raises) with message `e`, the primary file's content is
the deterministic fallback page, a valid standalone HTML document. -/
theorem generate_code_total_with_fallback (brief : String)
    (attachments : List Handler.Attachment) (existing_code : Option String)
    (llm : String → Except String String) :
    Handler.generate_code_with_gemini brief attachments existing_code llm ≠ [] ∧
    ((Handler.generate_code_with_gemini brief attachments existing_code llm).lookup
      "index.html").isSome = true ∧
    (∀ e, (∀ p, llm p = Except.error e) →
      (Handler.generate_code_with_gemini brief attachments existing_code llm).lookup
          "index.html" = some (Handler.safe_error_html e) ∧
        isStandaloneHtmlish (Handler.safe_error_html e)) := by
  refine ⟨by simp [Handler.generate_code_with_gemini], ?_, ?_⟩
  · simp [Handler.generate_code_with_gemini, List.lookup]
  · intro e he
    refine ⟨?_, safe_error_html_standalone e⟩
    simp [Handler.generate_code_with_gemini, he, List.lookup]

/-- Witness for C2 at a concrete brief and a uniformly failing LLM call. -/
theorem generate_code_total_with_fallback_witness :
    (Handler.generate_code_with_gemini "make a page" [] none
        (fun _ => Except.error "boom")).lookup "index.html" =
      some (Handler.safe_error_html "boom") :=
  ((generate_code_total_with_fallback "make a page" [] none
    (fun _ => Except.error "boom")).2.2 "boom" (fun _ => rfl)).1

/-! ## C7 -/

/-- C7: for a task with round number greater than 1, the pipeline's first step
is the attempt to read the previously published `index.html` from the
collection named after the task identifier — before any generate call — and
when that read fails for any reason the pipeline still reaches the generate
step with `existing_code = None` instead of aborting. -/
theorem round_context_fetch_fallback (task : String) (round : Nat)
    (fetch : Except String String) (h : round > 1) :
    (∃ b rest, (Handler.handle_build_request_context task round fetch).1 =
      Handler.PipeEvent.fetchPrior task "index.html" b :: rest) ∧
    (∀ e, fetch = Except.error e →
      Handler.handle_build_request_context task round fetch =
        ([Handler.PipeEvent.fetchPrior task "index.html" false,
          Handler.PipeEvent.generate none], none)) := by
  constructor
  · unfold Handler.handle_build_request_context
    rw [if_pos h]
    cases fetch with
    | ok code => exact ⟨true, _, rfl⟩
    | error msg => exact ⟨false, _, rfl⟩
  · intro e hf
    subst hf
    unfold Handler.handle_build_request_context
    rw [if_pos h]

/-- Witness for C7 at round 2 with a failing context fetch. -/
theorem round_context_fetch_fallback_witness :
    Handler.handle_build_request_context "task-1" 2 (Except.error "404 not found") =
      ([Handler.PipeEvent.fetchPrior "task-1" "index.html" false,
        Handler.PipeEvent.generate none], none) :=
  (round_context_fetch_fallback "task-1" 2 (Except.error "404 not found")
    (by decide)).2 "404 not found" rfl
